import Mathlib

/-!
Shallow embedding of `grandpybot/chatbots/chatbotfactory.py`.

The module defines two factories:
  * `OpenStreetMapBotFactory` — geocoding: one HTTP GET, take the first
    element of the JSON array, build a bot from `display_name`, `lat`, `lon`.
  * `OpenMediaWikiBotFactory` — geosearch: one HTTP GET, collect the
    `pageid`s under `query.geosearch`, pick one uniformly at random with
    `random.randint`, one more HTTP GET, build a bot from
    `query.pages[str(id)].extract`.

The embedding models decoded JSON values (`Json`), the Python dictionary /
list / string primitives the code uses (`getItem`, `containsStr`, `pyIter`,
`index`, `str()` as `pyStr`) with their Python error behaviour
(`KeyError`, `IndexError`, `TypeError`, `ValueError`) in the `Except`
monad, and the HTTP environment as explicit parameters: the decoded
response bodies the remote endpoints return for the requests the code
issues, plus one natural number consumed by the random draw.
-/

namespace GrandPyBot

/-- A decoded JSON value, as produced by `response.json()` in Python.
Objects are association lists; duplicate keys resolve to the last
binding, as in Python's `json.loads`. -/
inductive Json where
  | null : Json
  | bool : Bool → Json
  | num : Int → Json
  | str : String → Json
  | arr : List Json → Json
  | obj : List (String × Json) → Json

/-- The Python exceptions the embedded code can raise. -/
inductive PyErr where
  | keyError : PyErr
  | indexError : PyErr
  | typeError : PyErr
  | valueError : PyErr
deriving DecidableEq

/-- Key lookup in a decoded JSON object; the last binding wins, matching
`json.loads` on duplicate keys. -/
def lookupField : List (String × Json) → String → Option Json
  | [], _ => none
  | (k, v) :: rest, key =>
    match lookupField rest key with
    | some v2 => some v2
    | none => if k = key then some v else none

/-- Python subscript `j[key]` with a string key: dictionary lookup
(`KeyError` when absent), `TypeError` on every other value. -/
def Json.getItem (j : Json) (key : String) : Except PyErr Json :=
  match j with
  | .obj fs =>
    match lookupField fs key with
    | some v => .ok v
    | none => .error .keyError
  | _ => .error .typeError

/-- Does the character list `pat` occur as a contiguous run at the head
of `s`? -/
def listStartsWith : List Char → List Char → Bool
  | _, [] => true
  | [], _ :: _ => false
  | a :: as, b :: bs => a = b && listStartsWith as bs

/-- Does the character list `pat` occur contiguously anywhere in `s`?
Models Python substring membership `pat in s`. -/
def listHasInfix : List Char → List Char → Bool
  | [], pat => pat.isEmpty
  | s :: rest, pat => listStartsWith (s :: rest) pat || listHasInfix rest pat

/-- Python membership `key in j` for a string needle: key lookup on
dictionaries, element equality on lists (a `str` only equals a `str`),
substring test on strings, `TypeError` otherwise. -/
def Json.containsStr (j : Json) (key : String) : Except PyErr Bool :=
  match j with
  | .obj fs => .ok (lookupField fs key).isSome
  | .arr es => .ok (es.any fun e => match e with | .str s => s = key | _ => false)
  | .str s => .ok (listHasInfix s.toList key.toList)
  | _ => .error .typeError

/-- Python iteration `for item in j`: the elements of a list, the keys of
a dictionary, the one-character strings of a string, `TypeError`
otherwise. -/
def Json.pyIter : Json → Except PyErr (List Json)
  | .arr es => .ok es
  | .obj fs => .ok (fs.map fun p => Json.str p.1)
  | .str s => .ok (s.toList.map fun c => Json.str (String.singleton c))
  | _ => .error .typeError

/-- Python subscript `j[i]` with an integer index: list and string
indexing with negative-index wrap-around and `IndexError` out of bounds,
`TypeError` on other values. -/
def Json.index (j : Json) (i : Int) : Except PyErr Json :=
  match j with
  | .arr es =>
    let n : Int := es.length
    let k := if i < 0 then i + n else i
    if k < 0 then .error .indexError
    else
      match es.get? k.toNat with
      | some v => .ok v
      | none => .error .indexError
  | .str s =>
    let n : Int := s.length
    let k := if i < 0 then i + n else i
    if k < 0 then .error .indexError
    else
      match s.toList.get? k.toNat with
      | some c => .ok (.str (String.singleton c))
      | none => .error .indexError
  | _ => .error .typeError

mutual

/-- Python `repr()` of a decoded JSON value. Scalars are rendered exactly
as Python renders them; strings are wrapped in single quotes (the code
under verification only ever stringifies scalar page ids, so the
character-escaping Python applies inside quoted strings is not reached
and is not modelled). -/
def Json.pyRepr : Json → String
  | .null => "None"
  | .bool true => "True"
  | .bool false => "False"
  | .num n => toString n
  | .str s => "\x27" ++ s ++ "\x27"
  | .arr es => "[" ++ String.intercalate ", " (pyReprList es) ++ "]"
  | .obj fs => "\x7b" ++ String.intercalate ", " (pyReprFields fs) ++ "\x7d"

/-- `Json.pyRepr` mapped over a list of values. -/
def pyReprList : List Json → List String
  | [] => []
  | x :: xs => Json.pyRepr x :: pyReprList xs

/-- `Json.pyRepr` mapped over the bindings of an object. -/
def pyReprFields : List (String × Json) → List String
  | [] => []
  | (k, v) :: rest => ("\x27" ++ k ++ "\x27: " ++ Json.pyRepr v) :: pyReprFields rest

end

/-- Python `str()` of a decoded JSON value, as used by f-string
interpolation and by `str(chosen_page_id)`: a string passes through
verbatim, every other value renders as its `repr`. -/
def Json.pyStr (j : Json) : String :=
  match j with
  | .str s => s
  | _ => j.pyRepr

/-- Python `random.randint(a, b)`: an integer uniformly distributed in
the inclusive range `[a, b]`, raising `ValueError` ("empty range for
randrange") when `b < a`. The randomness outcome is the explicit `draw`
parameter; the value returned is the canonical surjection
`a + draw % (b - a + 1)`, under which every point of `[a, b]` is the
image of some draw. -/
def randint (a b : Int) (draw : Nat) : Except PyErr Int :=
  if b < a then .error .valueError
  else .ok (a + (draw : Int) % (b - a + 1))

/-- Modelled from the spec: the `OpenStreetMapBot` value class
(`grandpybot/chatbots/openstreetmap.py`, not part of the sources at
hand). Per the spec's data model, a `PlaceResult` carries a display
name, a latitude and a longitude, stores the constructor arguments
unchanged and is immutable. -/
structure OpenStreetMapBot where
  display_name : Json
  latitude : Json
  longitude : Json

/-- Modelled from the spec: the `OpenMediaWikiBot` value class
(`grandpybot/chatbots/openmediawiki.py`, not part of the sources at
hand). Per the spec's data model, an `ExtractResult` carries a single
text extract, stored unchanged from the constructor argument. -/
structure OpenMediaWikiBot where
  intro : Json

/-- The OpenStreetMap chat bot factory: holds the user search term. -/
structure OpenStreetMapBotFactory where
  search_term : Json

namespace OpenStreetMapBotFactory

/-- The URL of the GET request `perform_search` issues for a search
term. -/
def search_url (search_term : Json) : String :=
  "https://nominatim.openstreetmap.org/search?" ++
  "q=" ++ search_term.pyStr ++ "&" ++
  "addressdetails=1&" ++
  "countrycodes=fr&" ++
  "limit=1&" ++
  "format=json"

/-- `perform_search`: issue the GET request and take element 0 of the
decoded response body. The network is explicit: `response` is the
decoded JSON body the geocoding endpoint returns for the issued
request. -/
def perform_search (response : Json) : Except PyErr Json :=
  response.index 0

/-- `build`: run the search, then read `display_name`, `lat` and `lon`
from the first result object and construct the bot from them. -/
def build (_f : OpenStreetMapBotFactory) (response : Json) :
    Except PyErr OpenStreetMapBot := do
  let osm_object ← perform_search response
  let display_name ← osm_object.getItem "display_name"
  let latitude ← osm_object.getItem "lat"
  let longitude ← osm_object.getItem "lon"
  return ⟨display_name, latitude, longitude⟩

/-- `get_object`, inherited from `ChatBotFactory`: returns
`self.build()`. -/
def get_object (f : OpenStreetMapBotFactory) (response : Json) :
    Except PyErr OpenStreetMapBot :=
  f.build response

/-- One full observable call of `build`: the result, the HTTP requests
issued (always exactly the one search request), and the factory's own
state afterwards (no method assigns to `self`, so it is the state it
started with). -/
structure CallTrace where
  result : Except PyErr OpenStreetMapBot
  requests : List String
  selfAfter : OpenStreetMapBotFactory

/-- The traced call: `build` together with its observable effects. -/
def buildTraced (f : OpenStreetMapBotFactory) (response : Json) : CallTrace :=
  { result := f.build response
    requests := [search_url f.search_term]
    selfAfter := f }

/-- Two consecutive `build` calls on the same factory object, the second
one made on whatever `self` the first call left behind. -/
def twoCalls (f : OpenStreetMapBotFactory) (r1 r2 : Json) :
    CallTrace × CallTrace :=
  let t1 := f.buildTraced r1
  let t2 := t1.selfAfter.buildTraced r2
  (t1, t2)

end OpenStreetMapBotFactory

/-- The OpenMediaWiki chat bot factory: holds the user latitude and
longitude. -/
structure OpenMediaWikiBotFactory where
  latitude : Json
  longitude : Json

/-- The environment of one `OpenMediaWikiBotFactory.build` call: the
decoded JSON body the geosearch endpoint returns for the issued
request, the randomness outcome `random.randint` consumes, and the
decoded JSON body the extract endpoint returns as a function of the
page id interpolated into the extract request. -/
structure OmwEnv where
  geoResponse : Json
  draw : Nat
  extractResponse : Json → Json

namespace OpenMediaWikiBotFactory

/-- The URL of the GET request `perform_geo_search` issues for a
latitude/longitude pair. -/
def geo_search_url (latitude longitude : Json) : String :=
  "https://fr.wikipedia.org/w/api.php?" ++
  "action=query&" ++
  "list=geosearch&" ++
  "gscoord=" ++ latitude.pyStr ++ "|" ++ longitude.pyStr ++ "&" ++
  "gsradius=10000&" ++
  "gslimit=10&" ++
  "format=json"

/-- The URL of the GET request `perform_query_search` issues for a
chosen page id. -/
def query_search_url (chosen_page_id : Json) : String :=
  "https://fr.wikipedia.org/w/api.php?" ++
  "action=query&" ++
  "prop=extracts&" ++
  "exsentences=3&" ++
  "pageids=" ++ chosen_page_id.pyStr ++ "&" ++
  "format=json"

/-- The candidate-collection phase of `build`:
`if "query" in omw_object and "geosearch" in omw_object["query"]:` then
append `item["pageid"]` for every item of
`omw_object["query"]["geosearch"]`, else keep `page_ids` empty. The
`and` short-circuits exactly as in Python, and each subscript and
membership test carries its Python error behaviour. -/
def collect_page_ids (omw_object : Json) : Except PyErr (List Json) := do
  let has_query ← omw_object.containsStr "query"
  if has_query then
    let q ← omw_object.getItem "query"
    let has_geosearch ← q.containsStr "geosearch"
    if has_geosearch then
      let g ← omw_object.getItem "query"
      let items ← (← g.getItem "geosearch").pyIter
      items.mapM fun item => item.getItem "pageid"
    else
      return []
  else
    return []

/-- The selection phase of `build`:
`random_index = random.randint(0, len(page_ids) - 1)` followed by
`page_ids[random_index]`. -/
def choose_page_id (page_ids : List Json) (draw : Nat) : Except PyErr Json := do
  let random_index ← randint 0 ((page_ids.length : Int) - 1) draw
  (Json.arr page_ids).index random_index

/-- The extraction phase of `build`:
`omw_object["query"]["pages"][str(chosen_page_id)]["extract"]` applied
to the decoded extract response, with the chosen page id already
rendered by `str()`. -/
def extract_of (omw_object : Json) (page_key : String) : Except PyErr Json := do
  let q ← omw_object.getItem "query"
  let pages ← q.getItem "pages"
  let page ← pages.getItem page_key
  page.getItem "extract"

/-- `build`: geosearch, collect the candidate page ids, draw one at
random, query the extract endpoint for it, and construct the bot from
the extract text. -/
def build (_f : OpenMediaWikiBotFactory) (env : OmwEnv) :
    Except PyErr OpenMediaWikiBot := do
  let page_ids ← collect_page_ids env.geoResponse
  let chosen_page_id ← choose_page_id page_ids env.draw
  let omw_object := env.extractResponse chosen_page_id
  let intro ← extract_of omw_object chosen_page_id.pyStr
  return ⟨intro⟩

/-- `get_object`, inherited from `ChatBotFactory`: returns
`self.build()`. -/
def get_object (f : OpenMediaWikiBotFactory) (env : OmwEnv) :
    Except PyErr OpenMediaWikiBot :=
  f.build env

/-- The HTTP requests one `build` call issues: always the geosearch
request, then the extract request exactly when the candidate collection
and the random selection both succeed (a failure there raises before
`perform_query_search` is reached). -/
def requests (f : OpenMediaWikiBotFactory) (env : OmwEnv) : List String :=
  geo_search_url f.latitude f.longitude ::
    match collect_page_ids env.geoResponse >>= fun page_ids =>
        choose_page_id page_ids env.draw with
    | .ok pid => [query_search_url pid]
    | .error _ => []

/-- One full observable call of `build`: the result, the HTTP requests
issued, and the factory's own state afterwards (no method assigns to
`self`, so it is the state it started with). -/
structure CallTrace where
  result : Except PyErr OpenMediaWikiBot
  requests : List String
  selfAfter : OpenMediaWikiBotFactory

/-- The traced call: `build` together with its observable effects. -/
def buildTraced (f : OpenMediaWikiBotFactory) (env : OmwEnv) : CallTrace :=
  { result := f.build env
    requests := f.requests env
    selfAfter := f }

/-- Two consecutive `build` calls on the same factory object, the second
one made on whatever `self` the first call left behind. -/
def twoCalls (f : OpenMediaWikiBotFactory) (e1 e2 : OmwEnv) :
    CallTrace × CallTrace :=
  let t1 := f.buildTraced e1
  let t2 := t1.selfAfter.buildTraced e2
  (t1, t2)

end OpenMediaWikiBotFactory

/-! Concrete fixtures, decoded from the JSON bodies the spec's testable
properties quote. -/

/-- The single result object of the geocode fixture
`[{"display_name": "Paris", "lat": "48.85", "lon": "2.35"}]`. -/
def parisObject : Json :=
  .obj [("display_name", .str "Paris"), ("lat", .str "48.85"), ("lon", .str "2.35")]

/-- The geocode fixture response `[{...Paris...}]`. -/
def parisResponse : Json :=
  .arr [parisObject]

/-- The geosearch fixture response
`{"query": {"geosearch": [{"pageid": 42}]}}`. -/
def geoResponse42 : Json :=
  .obj [("query", .obj [("geosearch", .arr [.obj [("pageid", .num 42)]])])]

/-- The extract fixture response
`{"query": {"pages": {"42": {"extract": "Hello."}}}}`. -/
def extractResponse42 : Json :=
  .obj [("query", .obj [("pages", .obj [("42", .obj [("extract", .str "Hello.")])])])]

/-- A geosearch response with the two candidates 1 and 2. -/
def geoResponseTwo : Json :=
  .obj [("query", .obj [("geosearch",
    .arr [.obj [("pageid", .num 1)], .obj [("pageid", .num 2)]])])]

/-- An extract response for page id 2: `{"query": {"pages": {"2":
{"extract": "Two."}}}}`. -/
def extractResponseTwo : Json :=
  .obj [("query", .obj [("pages", .obj [("2", .obj [("extract", .str "Two.")])])])]

/-! Helper lemmas on the embedded Python primitives. -/

theorem excBind_ok {α β : Type} (a : α) (g : α → Except PyErr β) :
    (Except.ok a >>= g) = g a := rfl

theorem excBind_error {α β : Type} (e : PyErr) (g : α → Except PyErr β) :
    ((Except.error e : Except PyErr α) >>= g) = .error e := rfl

/-- A successful subscript `j[key]` means the membership test
`key in j` succeeds and is true. -/
theorem getItem_ok_containsStr {j v : Json} {key : String}
    (h : j.getItem key = .ok v) : j.containsStr key = .ok true := by
  cases j <;> simp [Json.getItem] at h
  rename_i fs
  cases hl : lookupField fs key with
  | none => rw [hl] at h; cases h
  | some w => simp [Json.containsStr, hl]

/-- `List.mapM` over `Except` succeeds with exactly the pointwise images
described by a `Forall₂` relation. -/
theorem mapM_ok_of_forall₂ {α β : Type} {g : α → Except PyErr β}
    {xs : List α} {ys : List β}
    (h : List.Forall₂ (fun x y => g x = Except.ok y) xs ys) :
    xs.mapM g = .ok ys := by
  induction h with
  | nil => rfl
  | cons hxy _ ih =>
    rename_i x y xs ys
    rw [List.mapM_cons, hxy, excBind_ok, ih]
    rfl

end GrandPyBot

namespace GrandPyBot

/-- C1: for a geocode response whose body is an array starting with an
object carrying `display_name`, `lat` and `lon`, `build` constructs the
bot from exactly those three fields of the first element; on the Paris
fixture it returns the bot with display name "Paris", latitude "48.85"
(the response's string for 48.85) and longitude "2.35". -/
theorem osm_build_takes_first_element
    (f : OpenStreetMapBotFactory) (x : Json) (rest : List Json)
    (d la lo : Json)
    (hd : x.getItem "display_name" = .ok d)
    (hla : x.getItem "lat" = .ok la)
    (hlo : x.getItem "lon" = .ok lo) :
    f.build (Json.arr (x :: rest)) = .ok ⟨d, la, lo⟩ ∧
    f.build parisResponse = .ok ⟨.str "Paris", .str "48.85", .str "2.35"⟩ := by
  refine ⟨?_, rfl⟩
  have h0 : OpenStreetMapBotFactory.perform_search (.arr (x :: rest)) = .ok x := rfl
  simp only [OpenStreetMapBotFactory.build, h0, excBind_ok, hd, hla, hlo]
  rfl

theorem osm_build_takes_first_element_witness :
    OpenStreetMapBotFactory.build ⟨Json.str "Paris"⟩ (Json.arr (parisObject :: [])) =
      .ok ⟨.str "Paris", .str "48.85", .str "2.35"⟩ ∧
    OpenStreetMapBotFactory.build ⟨Json.str "Paris"⟩ parisResponse =
      .ok ⟨.str "Paris", .str "48.85", .str "2.35"⟩ :=
  osm_build_takes_first_element ⟨Json.str "Paris"⟩ parisObject []
    (.str "Paris") (.str "48.85") (.str "2.35") rfl rfl rfl

/-- C3: on a geocode response that decodes to the empty array, `build`
fails with the index error raised by `response.json()[0]` and returns
no bot. -/
theorem osm_build_empty_response_fails (f : OpenStreetMapBotFactory) :
    f.build (Json.arr []) = .error .indexError := rfl

/-- C2: whenever the candidate collection of the geo-wiki `build`
produces the empty page-id list, `build` fails with the range error
`random.randint(0, -1)` raises on an empty range, and returns no bot. -/
theorem omw_build_empty_candidates_fails
    (f : OpenMediaWikiBotFactory) (env : OmwEnv)
    (h : OpenMediaWikiBotFactory.collect_page_ids env.geoResponse = .ok []) :
    f.build env = .error .valueError := by
  simp only [OpenMediaWikiBotFactory.build, h, excBind_ok]
  rfl

theorem omw_build_empty_candidates_fails_witness :
    OpenMediaWikiBotFactory.collect_page_ids (Json.obj []) = .ok [] ∧
    OpenMediaWikiBotFactory.build ⟨.null, .null⟩ ⟨.obj [], 0, fun _ => .null⟩ =
      .error .valueError :=
  ⟨rfl, omw_build_empty_candidates_fails ⟨.null, .null⟩ ⟨.obj [], 0, fun _ => .null⟩ rfl⟩

/-- C9: for both factories, and for every factory state and environment,
the inherited accessor `get_object` returns exactly what `build`
returns. -/
theorem get_object_eq_build :
    ∀ (f : OpenStreetMapBotFactory) (response : Json)
      (g : OpenMediaWikiBotFactory) (env : OmwEnv),
      f.get_object response = f.build response ∧
      g.get_object env = g.build env :=
  fun _ _ _ _ => ⟨rfl, rfl⟩

/-- C8: neither `build` mutates its factory (`selfAfter` is the starting
state), and a second call on the same factory with the same environment
produces an identical trace — the same single-request list (OSM) or
request list (wiki) is re-issued and the same result is returned, with
no caching or shared state. -/
theorem factories_stateless :
    ∀ (f : OpenStreetMapBotFactory) (response : Json)
      (g : OpenMediaWikiBotFactory) (env : OmwEnv),
      (f.buildTraced response).selfAfter = f ∧
      OpenStreetMapBotFactory.twoCalls f response response =
        (f.buildTraced response, f.buildTraced response) ∧
      (f.buildTraced response).requests =
        [OpenStreetMapBotFactory.search_url f.search_term] ∧
      (g.buildTraced env).selfAfter = g ∧
      OpenMediaWikiBotFactory.twoCalls g env env =
        (g.buildTraced env, g.buildTraced env) ∧
      (g.buildTraced env).requests = g.requests env :=
  fun _ _ _ _ => ⟨rfl, rfl, rfl, rfl, rfl, rfl⟩

end GrandPyBot

namespace GrandPyBot

open OpenMediaWikiBotFactory in
/-- C4: when the candidate collection yields the single page id `p` and
the extract response for `p` maps `str(p)` to a page whose extract is
`t`, `build` returns the bot with text `t`, for every randomness
outcome. -/
theorem omw_build_single_candidate
    (f : OpenMediaWikiBotFactory) (env : OmwEnv) (p : Int) (t : Json)
    (h1 : collect_page_ids env.geoResponse = .ok [Json.num p])
    (h2 : extract_of (env.extractResponse (Json.num p)) (Json.num p).pyStr = .ok t) :
    f.build env = .ok ⟨t⟩ := by
  have hc : choose_page_id [Json.num p] env.draw = .ok (Json.num p) := by
    simp [choose_page_id, randint, Json.index, Int.emod_one]
    rfl
  simp only [OpenMediaWikiBotFactory.build, h1, excBind_ok, hc, h2]
  rfl

theorem omw_build_single_candidate_witness :
    OpenMediaWikiBotFactory.collect_page_ids geoResponse42 = .ok [Json.num 42] ∧
    OpenMediaWikiBotFactory.build ⟨.str "48.85", .str "2.35"⟩
      ⟨geoResponse42, 7, fun _ => extractResponse42⟩ = .ok ⟨.str "Hello."⟩ :=
  ⟨rfl, omw_build_single_candidate ⟨.str "48.85", .str "2.35"⟩
    ⟨geoResponse42, 7, fun _ => extractResponse42⟩ 42 (.str "Hello.") rfl rfl⟩

end GrandPyBot

namespace GrandPyBot

open OpenMediaWikiBotFactory in
/-- C5 counterexample: the response `{"query": 5}` lacks a geosearch
key, yet the candidate collection does not produce the empty sequence —
the membership test `"geosearch" in 5` raises `TypeError`. -/
theorem omw_candidates_missing_geosearch_counterexample :
    collect_page_ids (Json.obj [("query", Json.num 5)]) = .error .typeError ∧
    collect_page_ids (Json.obj [("query", Json.num 5)]) ≠ .ok [] :=
  ⟨rfl, fun h => Except.noConfusion h⟩

open OpenMediaWikiBotFactory in
/-- C5 amended: the candidate sequence is exactly the `pageid` values of
the objects under `query.geosearch`, in response order; it is empty when
the response object has no `query` key or the `query` value is an object
with no `geosearch` key; and when the `query` value is a number (a
non-container), the membership test itself fails with a type error
instead of yielding an empty sequence. -/
theorem omw_candidates_characterization :
    (∀ (resp q g : Json) (items pids : List Json),
        resp.getItem "query" = .ok q →
        q.getItem "geosearch" = .ok g →
        g.pyIter = .ok items →
        List.Forall₂ (fun item pid => item.getItem "pageid" = Except.ok pid) items pids →
        collect_page_ids resp = .ok pids) ∧
    (∀ fs : List (String × Json),
        lookupField fs "query" = none →
        collect_page_ids (Json.obj fs) = .ok []) ∧
    (∀ (fs qs : List (String × Json)),
        lookupField fs "query" = some (Json.obj qs) →
        lookupField qs "geosearch" = none →
        collect_page_ids (Json.obj fs) = .ok []) ∧
    (∀ (fs : List (String × Json)) (n : Int),
        lookupField fs "query" = some (Json.num n) →
        collect_page_ids (Json.obj fs) = .error .typeError) := by
  refine ⟨?_, ?_, ?_, ?_⟩
  · intro resp q g items pids hq hg hi hf
    have hc1 := getItem_ok_containsStr hq
    have hc2 := getItem_ok_containsStr hg
    simp only [collect_page_ids, hc1, hc2, hq, hg, hi, excBind_ok, if_true,
      mapM_ok_of_forall₂ hf]
  · intro fs hnone
    simp only [collect_page_ids, Json.containsStr, hnone, Option.isSome_none,
      excBind_ok, if_false]
    rfl
  · intro fs qs hq hnone
    simp only [collect_page_ids, Json.containsStr, hq, Option.isSome_some,
      excBind_ok, if_true, Json.getItem, hnone, Option.isSome_none, if_false]
    rfl
  · intro fs n hq
    simp only [collect_page_ids, Json.containsStr, hq, Option.isSome_some,
      excBind_ok, if_true, Json.getItem, excBind_error]

theorem omw_candidates_characterization_witness :
    OpenMediaWikiBotFactory.collect_page_ids geoResponse42 = .ok [Json.num 42] ∧
    OpenMediaWikiBotFactory.collect_page_ids (Json.obj [("city", Json.str "x")]) = .ok [] ∧
    OpenMediaWikiBotFactory.collect_page_ids
      (Json.obj [("query", Json.obj [("other", Json.null)])]) = .ok [] ∧
    OpenMediaWikiBotFactory.collect_page_ids (Json.obj [("query", Json.num 7)]) =
      .error .typeError :=
  ⟨omw_candidates_characterization.1 geoResponse42
      (.obj [("geosearch", .arr [.obj [("pageid", .num 42)]])])
      (.arr [.obj [("pageid", .num 42)]])
      [.obj [("pageid", .num 42)]] [.num 42] rfl rfl rfl
      (List.Forall₂.cons rfl List.Forall₂.nil),
   omw_candidates_characterization.2.1 [("city", Json.str "x")] rfl,
   omw_candidates_characterization.2.2.1 [("query", Json.obj [("other", Json.null)])]
      [("other", Json.null)] rfl rfl,
   omw_candidates_characterization.2.2.2 [("query", Json.num 7)] 7 rfl⟩

end GrandPyBot

namespace GrandPyBot

open OpenMediaWikiBotFactory in
/-- C6: for a non-empty candidate sequence and a randomness outcome
whose draw reduces to the in-bounds index `i`, `build` selects the
`i`-th candidate, issues the extract request for exactly that id, and
returns whatever extract the extract response associates with it. -/
theorem omw_random_selection
    (f : OpenMediaWikiBotFactory) (env : OmwEnv) (pids : List Json)
    (i : Nat) (t : Json)
    (h1 : collect_page_ids env.geoResponse = .ok pids)
    (hi : i < pids.length)
    (hd : env.draw % pids.length = i)
    (h2 : extract_of (env.extractResponse (pids.get ⟨i, hi⟩))
      (pids.get ⟨i, hi⟩).pyStr = .ok t) :
    choose_page_id pids env.draw = .ok (pids.get ⟨i, hi⟩) ∧
    f.requests env = [geo_search_url f.latitude f.longitude,
      query_search_url (pids.get ⟨i, hi⟩)] ∧
    f.build env = .ok ⟨t⟩ := by
  have hc : choose_page_id pids env.draw = .ok (pids.get ⟨i, hi⟩) := by
    have hb : ¬ ((pids.length : Int) - 1 < 0) := by omega
    simp only [choose_page_id, randint, if_neg hb, excBind_ok, Json.index]
    have heq : (0 : Int) + (env.draw : Int) % ((pids.length : Int) - 1 - 0 + 1) = (i : Int) := by
      have h' : ((pids.length : Int) - 1 - 0 + 1) = (pids.length : Int) := by ring
      rw [h', zero_add]
      exact_mod_cast hd
    rw [heq]
    have hneg : ¬ ((i : Int) < 0) := by omega
    simp only [if_neg hneg, Int.toNat_natCast, List.get?_eq_get hi]
  refine ⟨hc, ?_, ?_⟩
  · simp only [requests, h1, excBind_ok, hc]
  · simp only [OpenMediaWikiBotFactory.build, h1, excBind_ok, hc, h2]
    rfl

theorem omw_random_selection_witness :
    OpenMediaWikiBotFactory.choose_page_id [Json.num 1, Json.num 2] 3 =
      .ok (Json.num 2) ∧
    OpenMediaWikiBotFactory.requests ⟨.str "48.85", .str "2.35"⟩
      ⟨geoResponseTwo, 3, fun _ => extractResponseTwo⟩ =
      [OpenMediaWikiBotFactory.geo_search_url (.str "48.85") (.str "2.35"),
       OpenMediaWikiBotFactory.query_search_url (Json.num 2)] ∧
    OpenMediaWikiBotFactory.build ⟨.str "48.85", .str "2.35"⟩
      ⟨geoResponseTwo, 3, fun _ => extractResponseTwo⟩ = .ok ⟨.str "Two."⟩ :=
  omw_random_selection ⟨.str "48.85", .str "2.35"⟩
    ⟨geoResponseTwo, 3, fun _ => extractResponseTwo⟩
    [Json.num 1, Json.num 2] 1 (.str "Two.") rfl (by decide) rfl rfl

end GrandPyBot

namespace GrandPyBot

/-- C7: whenever a build succeeds, the text field stored in the returned
bot is the very JSON value of the corresponding response field — the
`display_name` of the first geocode result, respectively the `extract`
of the chosen page — with no mutation or reformatting in between. -/
theorem results_carry_text_verbatim :
    (∀ (f : OpenStreetMapBotFactory) (response : Json) (bot : OpenStreetMapBot),
        f.build response = .ok bot →
        ∃ x, OpenStreetMapBotFactory.perform_search response = .ok x ∧
          x.getItem "display_name" = .ok bot.display_name) ∧
    (∀ (f : OpenMediaWikiBotFactory) (env : OmwEnv) (bot : OpenMediaWikiBot),
        f.build env = .ok bot →
        ∃ page_ids pid,
          OpenMediaWikiBotFactory.collect_page_ids env.geoResponse = .ok page_ids ∧
          OpenMediaWikiBotFactory.choose_page_id page_ids env.draw = .ok pid ∧
          OpenMediaWikiBotFactory.extract_of (env.extractResponse pid) pid.pyStr =
            .ok bot.intro) := by
  constructor
  · intro f response bot h
    simp only [OpenStreetMapBotFactory.build] at h
    cases hps : OpenStreetMapBotFactory.perform_search response with
    | error e => rw [hps, excBind_error] at h; exact Except.noConfusion h
    | ok x =>
      rw [hps, excBind_ok] at h
      cases hd : x.getItem "display_name" with
      | error e => rw [hd, excBind_error] at h; exact Except.noConfusion h
      | ok d =>
        rw [hd, excBind_ok] at h
        cases hla : x.getItem "lat" with
        | error e => rw [hla, excBind_error] at h; exact Except.noConfusion h
        | ok la =>
          rw [hla, excBind_ok] at h
          cases hlo : x.getItem "lon" with
          | error e => rw [hlo, excBind_error] at h; exact Except.noConfusion h
          | ok lo =>
            rw [hlo, excBind_ok] at h
            have hb : bot = ⟨d, la, lo⟩ := Except.ok.inj h.symm
            subst hb
            exact ⟨x, rfl, hd⟩
  · intro f env bot h
    simp only [OpenMediaWikiBotFactory.build] at h
    cases hcol : OpenMediaWikiBotFactory.collect_page_ids env.geoResponse with
    | error e => rw [hcol, excBind_error] at h; exact Except.noConfusion h
    | ok page_ids =>
      rw [hcol, excBind_ok] at h
      cases hch : OpenMediaWikiBotFactory.choose_page_id page_ids env.draw with
      | error e => rw [hch, excBind_error] at h; exact Except.noConfusion h
      | ok pid =>
        rw [hch, excBind_ok] at h
        cases hex : OpenMediaWikiBotFactory.extract_of (env.extractResponse pid)
            pid.pyStr with
        | error e => rw [hex, excBind_error] at h; exact Except.noConfusion h
        | ok intro =>
          rw [hex, excBind_ok] at h
          have hb : bot = ⟨intro⟩ := Except.ok.inj h.symm
          subst hb
          exact ⟨page_ids, pid, rfl, hch, hex⟩

theorem results_carry_text_verbatim_witness :
    (∃ x, OpenStreetMapBotFactory.perform_search parisResponse = .ok x ∧
        x.getItem "display_name" = .ok (Json.str "Paris")) ∧
    (∃ page_ids pid,
        OpenMediaWikiBotFactory.collect_page_ids geoResponse42 = .ok page_ids ∧
        OpenMediaWikiBotFactory.choose_page_id page_ids 7 = .ok pid ∧
        OpenMediaWikiBotFactory.extract_of ((fun _ => extractResponse42) pid) pid.pyStr =
          .ok (Json.str "Hello.")) :=
  ⟨results_carry_text_verbatim.1 ⟨.str "Paris"⟩ parisResponse
      ⟨.str "Paris", .str "48.85", .str "2.35"⟩ rfl,
   results_carry_text_verbatim.2 ⟨.str "48.85", .str "2.35"⟩
      ⟨geoResponse42, 7, fun _ => extractResponse42⟩ ⟨.str "Hello."⟩ rfl⟩

/-- C10: a successful geocode build stores, as latitude and longitude,
the raw JSON values of the first result's `lat` and `lon` fields; on the
Paris fixture, where the response carries them as the strings "48.85"
and "2.35", the bot holds exactly those strings and not numbers. -/
theorem osm_lat_lon_raw :
    (∀ (f : OpenStreetMapBotFactory) (response : Json) (bot : OpenStreetMapBot),
        f.build response = .ok bot →
        ∃ x, OpenStreetMapBotFactory.perform_search response = .ok x ∧
          x.getItem "lat" = .ok bot.latitude ∧
          x.getItem "lon" = .ok bot.longitude) ∧
    (∀ f : OpenStreetMapBotFactory,
        f.build parisResponse =
          .ok ⟨.str "Paris", .str "48.85", .str "2.35"⟩) := by
  constructor
  · intro f response bot h
    simp only [OpenStreetMapBotFactory.build] at h
    cases hps : OpenStreetMapBotFactory.perform_search response with
    | error e => rw [hps, excBind_error] at h; exact Except.noConfusion h
    | ok x =>
      rw [hps, excBind_ok] at h
      cases hd : x.getItem "display_name" with
      | error e => rw [hd, excBind_error] at h; exact Except.noConfusion h
      | ok d =>
        rw [hd, excBind_ok] at h
        cases hla : x.getItem "lat" with
        | error e => rw [hla, excBind_error] at h; exact Except.noConfusion h
        | ok la =>
          rw [hla, excBind_ok] at h
          cases hlo : x.getItem "lon" with
          | error e => rw [hlo, excBind_error] at h; exact Except.noConfusion h
          | ok lo =>
            rw [hlo, excBind_ok] at h
            have hb : bot = ⟨d, la, lo⟩ := Except.ok.inj h.symm
            subst hb
            exact ⟨x, rfl, hla, hlo⟩
  · intro f
    rfl

theorem osm_lat_lon_raw_witness :
    (∃ x, OpenStreetMapBotFactory.perform_search parisResponse = .ok x ∧
        x.getItem "lat" = .ok (Json.str "48.85") ∧
        x.getItem "lon" = .ok (Json.str "2.35")) ∧
    OpenStreetMapBotFactory.build ⟨Json.str "Paris"⟩ parisResponse =
      .ok ⟨.str "Paris", .str "48.85", .str "2.35"⟩ :=
  ⟨osm_lat_lon_raw.1 ⟨.str "Paris"⟩ parisResponse
      ⟨.str "Paris", .str "48.85", .str "2.35"⟩ rfl,
   osm_lat_lon_raw.2 ⟨.str "Paris"⟩⟩

end GrandPyBot
